import Mathlib

/-!
Verification of the outreach-assistant repository: a shallow embedding of
`google_sheets.py`, `sender.py` and `main.py` as executable Lean functions,
followed by theorems settling the specification claims about lead reading,
contact classification, phone normalization and the campaign orchestrator.
Python strings are modelled by `String` (operations spelled out on `String.data`
so that everything reduces); external services (spreadsheet transport, the
generation API, SMTP, the messaging API) are modelled by oracle functions, and
the observable effects of a run (status writes, send invocations, network
calls) are collected in an explicit trace.
-/

/-- Characters matched by Python's `\s` in the `re.sub` calls of `sender.py`
(ASCII whitespace: space, tab, newline, carriage return, vertical tab, form feed). -/
def isPySpace (c : Char) : Bool :=
  c == ' ' || c == '\t' || c == '\n' || c == '\r' || c == '\x0b' || c == '\x0c'

/-- Python's `str.strip()` as used on the contact in `send_message`:
drop leading and trailing whitespace. -/
def pyStrip (s : String) : String :=
  ⟨((s.data.dropWhile isPySpace).reverse.dropWhile isPySpace).reverse⟩

/-- Python's `str.lower()` restricted to ASCII, as applied to status strings
(`"Pending"`, `"Sent"`, `"Error"`) in `google_sheets.py` and `main.py`. -/
def pyLower (s : String) : String :=
  ⟨s.data.map Char.toLower⟩

/-- Python's `str.startswith(pre)`. -/
def pyStartsWith (s pre : String) : Bool :=
  pre.data.isPrefixOf s.data

/-- Character class of the regex `[\s\-\(\)]` removed by
`re.sub(r'[\s\-\(\)]', '', phone)` in `_send_whatsapp` (note: no `+`). -/
def isWaStripChar (c : Char) : Bool :=
  isPySpace c || c == '-' || c == '(' || c == ')'

/-- Character class of the regex `[\s\-\(\)\+]` removed by
`re.sub(r'[\s\-\(\)\+]', '', contact)` in `_is_phone_number`. -/
def isPhoneStripChar (c : Char) : Bool :=
  isWaStripChar c || c == '+'

/-- The cleaning step of `_send_whatsapp`: remove whitespace, dashes and
parentheses (but not `+`). -/
def cleanWaPhone (s : String) : String :=
  ⟨s.data.filter (fun c => !isWaStripChar c)⟩

/-- The cleaning step of `_is_phone_number`: remove whitespace, dashes,
parentheses and `+`. -/
def cleanContact (s : String) : String :=
  ⟨s.data.filter (fun c => !isPhoneStripChar c)⟩

/-- `MessageSender._is_phone_number`: after cleaning, the contact must be all
digits and 10 to 15 characters long. -/
def isPhoneNumber (contact : String) : Bool :=
  let cleaned := cleanContact contact
  cleaned.data.all Char.isDigit && decide (10 ≤ cleaned.length) && decide (cleaned.length ≤ 15)

/-- Character class `[a-zA-Z0-9._%+-]` of the local part of the email regex in
`_is_email`. -/
def isLocalChar (c : Char) : Bool :=
  c.isAlpha || c.isDigit || c == '.' || c == '_' || c == '%' || c == '+' || c == '-'

/-- Character class `[a-zA-Z0-9.-]` of the domain part of the email regex in
`_is_email`. -/
def isDomainChar (c : Char) : Bool :=
  c.isAlpha || c.isDigit || c == '.' || c == '-'

/-- Matching semantics of the anchored regex
`^[a-zA-Z0-9._%+-]+@[a-zA-Z0-9.-]+\.[a-zA-Z]{2,}$` of `_is_email`: the string
matches exactly when it decomposes as `local ++ "@" ++ middle ++ "." ++ tld`
with nonempty `local` over the local class, nonempty `middle` over the domain
class, and `tld` at least two ASCII letters; the search over the positions of
the `@` and of the final `.` realizes the existence of such a decomposition. -/
def emailMatch (cs : List Char) : Bool :=
  (List.range cs.length).any fun i =>
    cs.get? i == some '@' &&
    (let l := cs.take i
     let rest := cs.drop (i + 1)
     !l.isEmpty && l.all isLocalChar &&
     ((List.range rest.length).any fun j =>
       rest.get? j == some '.' &&
       (let m := rest.take j
        let t := rest.drop (j + 1)
        !m.isEmpty && m.all isDomainChar && decide (2 ≤ t.length) && t.all Char.isAlpha)))

/-- `MessageSender._is_email`. -/
def isEmail (contact : String) : Bool :=
  emailMatch contact.data

/-- The phone-number normalization block of `MessageSender._send_whatsapp`
(lines 86-101 of `sender.py`). -/
def normalizePhone (phone : String) : String :=
  if pyStartsWith phone "+" then phone
  else
    let cleaned := cleanWaPhone phone
    if pyStartsWith cleaned "91" && cleaned.length == 12 then
      "+" ++ cleaned
    else if cleaned.length == 10 &&
        (pyStartsWith cleaned "6" || pyStartsWith cleaned "7" ||
         pyStartsWith cleaned "8" || pyStartsWith cleaned "9") then
      "+91" ++ cleaned
    else if cleaned.length == 10 then
      "+1" ++ cleaned
    else
      "+" ++ cleaned

/-- A lead row as materialized by `GoogleSheetsManager.read_leads`. -/
structure Lead where
  row_number : Nat
  name : String
  contact : String
  interest : String
  region : String
  status : String
deriving DecidableEq, Repr

/-- The padding loop of `read_leads`: append empty strings until the row is at
least as long as the header row. -/
def padRow (row : List String) (headerLen : Nat) : List String :=
  row ++ List.replicate (headerLen - row.length) ""

/-- The dictionary built for one sheet row in `read_leads`: fields fall back to
`""` when the (padded) row is too short, except `status`, which falls back to
`"Pending"`. -/
def mkLead (i : Nat) (row : List String) : Lead :=
  { row_number := i
    name := (row.get? 0).getD ""
    contact := (row.get? 1).getD ""
    interest := (row.get? 2).getD ""
    region := (row.get? 3).getD ""
    status := (row.get? 4).getD "Pending" }

/-- The `for i, row in enumerate(values[1:], start=2)` loop of `read_leads`:
build one lead per data row, numbering from 2, after padding to header length. -/
def readLeadsAux (headerLen : Nat) (i : Nat) : List (List String) → List Lead
  | [] => []
  | row :: rest => mkLead i (padRow row headerLen) :: readLeadsAux headerLen (i + 1) rest

/-- `GoogleSheetsManager.read_leads` on the fetched cell values: the first row
is the header and is discarded; each data row becomes a `Lead`. -/
def read_leads : List (List String) → List Lead
  | [] => []
  | headers :: rest => readLeadsAux headers.length 2 rest

/-- `GoogleSheetsManager.get_pending_leads`: keep the leads whose status
lowercases to `"pending"`. -/
def get_pending_leads (values : List (List String)) : List Lead :=
  (read_leads values).filter (fun lead => pyLower lead.status == "pending")

/-- The status writes issued by `OutreachAssistant.retry_failed_leads`: one
`update_lead_status(row_number, "Pending")` per lead whose status lowercases
to `"error"`, in store order. -/
def retry_failed (values : List (List String)) : List (Nat × String) :=
  ((read_leads values).filter (fun lead => pyLower lead.status == "error")).map
    (fun lead => (lead.row_number, "Pending"))

/-- Oracles for the two delivery transports of `MessageSender`: given the lead,
the message body and the recipient address, each returns the `(success, detail)`
pair that the corresponding `try/except` block of `_send_email` or
`_send_whatsapp` produces (exceptions are caught there and surface as
`(False, detail)`, so a total function is a faithful model). -/
structure NetOracles where
  smtp : Lead → String → String → Bool × String
  wa : Lead → String → String → Bool × String

/-- The observable outcome of one `MessageSender.send_message` call: which of
the four paths ran, the recipient it addressed, and the `(success, detail)`
result. -/
inductive SendOutcome where
  | testMode
  | viaEmail (toAddr : String) (ok : Bool) (detail : String)
  | viaWhatsapp (toAddr : String) (ok : Bool) (detail : String)
  | invalidContact (detail : String)
deriving DecidableEq, Repr

/-- `MessageSender.send_message`: in test mode return success without touching
the network; otherwise strip the contact, try the email shape, then the phone
shape, else fail immediately. -/
def send_message (ora : NetOracles) (lead : Lead) (msg : String) (testMode : Bool) :
    SendOutcome :=
  if testMode then .testMode
  else
    let contact := pyStrip lead.contact
    if isEmail contact then
      let r := ora.smtp lead msg contact
      .viaEmail contact r.1 r.2
    else if isPhoneNumber contact then
      let toAddr := "whatsapp:" ++ normalizePhone contact
      let r := ora.wa lead msg toAddr
      .viaWhatsapp toAddr r.1 r.2
    else
      .invalidContact ("Invalid contact format for " ++ lead.name ++ ": " ++ contact)

/-- The boolean component of the pair returned by `send_message`. -/
def SendOutcome.ok : SendOutcome → Bool
  | .testMode => true
  | .viaEmail _ k _ => k
  | .viaWhatsapp _ k _ => k
  | .invalidContact _ => false

/-- The detail string of the pair returned by `send_message`. -/
def SendOutcome.detail : SendOutcome → String
  | .testMode => "Test mode - message not actually sent"
  | .viaEmail _ _ d => d
  | .viaWhatsapp _ _ d => d
  | .invalidContact d => d

/-- How many network deliveries a `send_message` call attempted: one SMTP
session on the email path, one messaging-API call on the WhatsApp path, none
in test mode or on an invalid contact. -/
def SendOutcome.networkCalls : SendOutcome → Nat
  | .viaEmail _ _ _ => 1
  | .viaWhatsapp _ _ _ => 1
  | _ => 0

/-- The recipient address a `send_message` call delivered to, when it reached
a transport. -/
def SendOutcome.recipient : SendOutcome → Option String
  | .viaEmail a _ _ => some a
  | .viaWhatsapp a _ _ => some a
  | _ => none

/-- The three contact classes of the delivery adapter. -/
inductive ContactClass where
  | email
  | phone
  | invalid
deriving DecidableEq, Repr

/-- The classification chain of `send_message` (lines 31-38 of `sender.py`):
email shape first, phone shape only otherwise, else invalid. -/
def classifyContact (contact : String) : ContactClass :=
  if isEmail contact then .email
  else if isPhoneNumber contact then .phone
  else .invalid

/-- The class of the path a non-test `send_message` call took (`none` for the
test-mode early return, which classifies nothing). -/
def SendOutcome.pathClass : SendOutcome → Option ContactClass
  | .testMode => none
  | .viaEmail _ _ _ => some .email
  | .viaWhatsapp _ _ _ => some .phone
  | .invalidContact _ => some .invalid

/-- The observable effects accumulated by one `run_outreach_campaign` pass:
the two counters, the `update_lead_status` calls in order, the rows for which
`send_message` was invoked, and the number of network deliveries attempted. -/
structure CampaignTrace where
  success_count : Nat
  error_count : Nat
  statusWrites : List (Nat × String)
  sendInvocations : List Nat
  networkCalls : Nat
deriving DecidableEq, Repr

/-- The body of the `for lead in pending_leads` loop of
`OutreachAssistant.run_outreach_campaign`: generate, and on an absent message
mark Error (live mode only) and count an error; otherwise send and record
Sent/Error (live mode only) with the matching counter. -/
def processLead (ora : NetOracles) (gen : Lead → Option String) (testMode : Bool)
    (acc : CampaignTrace) (lead : Lead) : CampaignTrace :=
  match gen lead with
  | none =>
    { acc with
      statusWrites :=
        if testMode then acc.statusWrites
        else acc.statusWrites ++ [(lead.row_number, "Error")]
      error_count := acc.error_count + 1 }
  | some msg =>
    let outcome := send_message ora lead msg testMode
    let acc1 :=
      { acc with
        sendInvocations := acc.sendInvocations ++ [lead.row_number]
        networkCalls := acc.networkCalls + outcome.networkCalls }
    if outcome.ok then
      { acc1 with
        statusWrites :=
          if testMode then acc1.statusWrites
          else acc1.statusWrites ++ [(lead.row_number, "Sent")]
        success_count := acc1.success_count + 1 }
    else
      { acc1 with
        statusWrites :=
          if testMode then acc1.statusWrites
          else acc1.statusWrites ++ [(lead.row_number, "Error")]
        error_count := acc1.error_count + 1 }

/-- The lead loop of `run_outreach_campaign`, folding `processLead` over the
pending leads in store order. -/
def campaignFold (ora : NetOracles) (gen : Lead → Option String) (testMode : Bool)
    (acc : CampaignTrace) (leads : List Lead) : CampaignTrace :=
  leads.foldl (processLead ora gen testMode) acc

/-- `OutreachAssistant.run_outreach_campaign` on a store snapshot: fetch the
pending leads and run the loop starting from zero counters and no effects. -/
def run_outreach_campaign (ora : NetOracles) (gen : Lead → Option String)
    (testMode : Bool) (values : List (List String)) : CampaignTrace :=
  campaignFold ora gen testMode ⟨0, 0, [], [], 0⟩ (get_pending_leads values)

lemma data_plus_append (s : String) : ("+" ++ s).data = '+' :: s.data := by
  cases s with
  | mk d => rfl

lemma startsWithPlus_plus (s : String) : pyStartsWith ("+" ++ s) "+" = true := by
  cases s with
  | mk d =>
    show (['+'] : List Char).isPrefixOf ('+' :: d) = true
    simp [List.isPrefixOf]

lemma startsWithPlus_plus91 (s : String) : pyStartsWith ("+91" ++ s) "+" = true := by
  cases s with
  | mk d =>
    show (['+'] : List Char).isPrefixOf ('+' :: '9' :: '1' :: d) = true
    simp [List.isPrefixOf]

lemma startsWithPlus_plus1 (s : String) : pyStartsWith ("+1" ++ s) "+" = true := by
  cases s with
  | mk d =>
    show (['+'] : List Char).isPrefixOf ('+' :: '1' :: d) = true
    simp [List.isPrefixOf]

/-- Claim C2: `_send_whatsapp` normalizes a phone contact by this precedence:
a leading `+` keeps the string as-is; otherwise, after cleaning, `91`-led
12-digit strings get `+`, 10-digit strings led by 6/7/8/9 get `+91`, other
10-digit strings get `+1`, and anything else gets `+`; in particular
`"9876543210"` becomes `"+919876543210"` and `"5551234567"` becomes
`"+15551234567"`. -/
theorem c2_phone_normalization_precedence (p : String) :
    (pyStartsWith p "+" = true → normalizePhone p = p) ∧
    (pyStartsWith p "+" = false →
      ((pyStartsWith (cleanWaPhone p) "91" && (cleanWaPhone p).length == 12) = true →
        normalizePhone p = "+" ++ cleanWaPhone p) ∧
      ((pyStartsWith (cleanWaPhone p) "91" && (cleanWaPhone p).length == 12) = false →
        (((cleanWaPhone p).length == 10 &&
            (pyStartsWith (cleanWaPhone p) "6" || pyStartsWith (cleanWaPhone p) "7" ||
             pyStartsWith (cleanWaPhone p) "8" || pyStartsWith (cleanWaPhone p) "9")) = true →
          normalizePhone p = "+91" ++ cleanWaPhone p) ∧
        (((cleanWaPhone p).length == 10 &&
            (pyStartsWith (cleanWaPhone p) "6" || pyStartsWith (cleanWaPhone p) "7" ||
             pyStartsWith (cleanWaPhone p) "8" || pyStartsWith (cleanWaPhone p) "9")) = false →
          ((cleanWaPhone p).length == 10) = true →
            normalizePhone p = "+1" ++ cleanWaPhone p) ∧
        (((cleanWaPhone p).length == 10 &&
            (pyStartsWith (cleanWaPhone p) "6" || pyStartsWith (cleanWaPhone p) "7" ||
             pyStartsWith (cleanWaPhone p) "8" || pyStartsWith (cleanWaPhone p) "9")) = false →
          ((cleanWaPhone p).length == 10) = false →
            normalizePhone p = "+" ++ cleanWaPhone p))) ∧
    normalizePhone "9876543210" = "+919876543210" ∧
    normalizePhone "5551234567" = "+15551234567" := by
  refine ⟨fun h => by simp [normalizePhone, h],
    fun h => ⟨fun h1 => by simp [normalizePhone, h, h1],
      fun h1 => ⟨fun h2 => by simp [normalizePhone, h, h1, h2],
        fun h2 h3 => by
          have h4 : (pyStartsWith (cleanWaPhone p) "6" || pyStartsWith (cleanWaPhone p) "7" ||
              pyStartsWith (cleanWaPhone p) "8" || pyStartsWith (cleanWaPhone p) "9") = false := by
            simpa [h3] using h2
          simp [normalizePhone, h, h1, h3, h4],
        fun h2 h3 => by simp [normalizePhone, h, h1, h2, h3]⟩⟩,
    by decide, by decide⟩

/-- Claim C2 witness: the precedence theorem applied to the two concrete
scenario contacts. -/
theorem c2_witness :
    normalizePhone "9876543210" = "+919876543210" ∧
    normalizePhone "+14155551212" = "+14155551212" :=
  ⟨(c2_phone_normalization_precedence "9876543210").2.2.1,
   (c2_phone_normalization_precedence "+14155551212").1 (by decide)⟩

/-- Claim C8: normalization is idempotent on every contact that already
starts with `+`. -/
theorem c8_normalize_idempotent_on_plus (x : String) (h : pyStartsWith x "+" = true) :
    normalizePhone (normalizePhone x) = normalizePhone x := by
  simp [normalizePhone, h]

/-- Claim C8 witness: idempotence at the concrete number `"+919876543210"`. -/
theorem c8_witness :
    normalizePhone (normalizePhone "+919876543210") = normalizePhone "+919876543210" :=
  c8_normalize_idempotent_on_plus "+919876543210" (by decide)

/-- Claim C9: every branch of the normalization yields a `+`-led number, and
whenever a non-test `send_message` call reaches the WhatsApp transport, the
recipient it addresses is exactly `"whatsapp:"` followed by the normalized
stripped contact. -/
theorem c9_whatsapp_recipient_shape :
    (∀ p : String, pyStartsWith (normalizePhone p) "+" = true) ∧
    (∀ (ora : NetOracles) (lead : Lead) (msg a : String) (k : Bool) (d : String),
      send_message ora lead msg false = .viaWhatsapp a k d →
      a = "whatsapp:" ++ normalizePhone (pyStrip lead.contact)) := by
  constructor
  · intro p
    cases h0 : pyStartsWith p "+" with
    | true => simp [normalizePhone, h0]
    | false =>
      cases h1 : (pyStartsWith (cleanWaPhone p) "91" && (cleanWaPhone p).length == 12) with
      | true => simpa [normalizePhone, h0, h1] using startsWithPlus_plus (cleanWaPhone p)
      | false =>
        cases h2 : ((cleanWaPhone p).length == 10 &&
            (pyStartsWith (cleanWaPhone p) "6" || pyStartsWith (cleanWaPhone p) "7" ||
             pyStartsWith (cleanWaPhone p) "8" || pyStartsWith (cleanWaPhone p) "9")) with
        | true => simpa [normalizePhone, h0, h1, h2] using startsWithPlus_plus91 (cleanWaPhone p)
        | false =>
          cases h3 : ((cleanWaPhone p).length == 10) with
          | true =>
            have h4 : (pyStartsWith (cleanWaPhone p) "6" || pyStartsWith (cleanWaPhone p) "7" ||
                pyStartsWith (cleanWaPhone p) "8" || pyStartsWith (cleanWaPhone p) "9") = false := by
              simpa [h3] using h2
            simpa [normalizePhone, h0, h1, h3, h4] using startsWithPlus_plus1 (cleanWaPhone p)
          | false => simpa [normalizePhone, h0, h1, h2, h3] using startsWithPlus_plus (cleanWaPhone p)
  · intro ora lead msg a k d h
    unfold send_message at h
    simp only [Bool.false_eq_true, if_false] at h
    rcases h1 : isEmail (pyStrip lead.contact) with _ | _ <;> rw [h1] at h
    · rcases h2 : isPhoneNumber (pyStrip lead.contact) with _ | _ <;> rw [h2] at h
      · simp at h
      · simp at h
        exact h.1.symm
    · simp at h

/-- Claim C9 witness: the recipient theorem applied to a concrete lead with
contact `"9876543210"` and constant-success oracles. -/
theorem c9_witness :
    pyStartsWith (normalizePhone "9876543210") "+" = true ∧
    "whatsapp:+919876543210" =
      "whatsapp:" ++ normalizePhone (pyStrip (Lead.mk 2 "A" "9876543210" "i" "r" "Pending").contact) :=
  ⟨c9_whatsapp_recipient_shape.1 "9876543210",
   c9_whatsapp_recipient_shape.2
     ⟨fun _ _ _ => (true, "ok"), fun _ _ _ => (true, "ok")⟩
     (Lead.mk 2 "A" "9876543210" "i" "r" "Pending") "hello"
     "whatsapp:+919876543210" true "ok" (by decide)⟩

/-- Claim C3: for any contact, the classification of `send_message` is
mutually exclusive and exhaustive over email/phone/invalid — each class holds
exactly when its boolean condition does, the phone class requires the email
shape to have failed, and a non-test `send_message` call takes exactly the
path of the contact's class. -/
theorem c3_classification_exclusive_exhaustive (ora : NetOracles) (lead : Lead) (msg : String) :
    (classifyContact (pyStrip lead.contact) = .email ∨
     classifyContact (pyStrip lead.contact) = .phone ∨
     classifyContact (pyStrip lead.contact) = .invalid) ∧
    (classifyContact (pyStrip lead.contact) = .email ↔ isEmail (pyStrip lead.contact) = true) ∧
    (classifyContact (pyStrip lead.contact) = .phone ↔
      (isEmail (pyStrip lead.contact) = false ∧ isPhoneNumber (pyStrip lead.contact) = true)) ∧
    (classifyContact (pyStrip lead.contact) = .invalid ↔
      (isEmail (pyStrip lead.contact) = false ∧ isPhoneNumber (pyStrip lead.contact) = false)) ∧
    (send_message ora lead msg false).pathClass = some (classifyContact (pyStrip lead.contact)) := by
  cases h1 : isEmail (pyStrip lead.contact) with
  | true =>
    simp [classifyContact, send_message, SendOutcome.pathClass, h1]
  | false =>
    cases h2 : isPhoneNumber (pyStrip lead.contact) with
    | true => simp [classifyContact, send_message, SendOutcome.pathClass, h1, h2]
    | false => simp [classifyContact, send_message, SendOutcome.pathClass, h1, h2]

/-- Claim C4: every lead returned by `get_pending_leads` has a status that is
`"Pending"` up to case, and every lead whose status is not `"Pending"` up to
case is excluded. -/
theorem c4_get_pending_filters (values : List (List String)) :
    (∀ lead ∈ get_pending_leads values, pyLower lead.status = "pending") ∧
    (∀ lead ∈ read_leads values, pyLower lead.status ≠ "pending" →
      lead ∉ get_pending_leads values) := by
  constructor
  · intro lead h
    have := (List.mem_filter.mp h).2
    simpa [beq_iff_eq] using this
  · intro lead _ hne hmem
    have := (List.mem_filter.mp hmem).2
    simp [beq_iff_eq] at this
    exact hne this

/-- Claim C4 witness: the filtering theorem applied to a concrete store with
one `"PENDING"` lead (kept, case-insensitively) and one `"Sent"` lead
(excluded). -/
theorem c4_witness :
    pyLower (Lead.mk 2 "A" "a" "i" "r" "PENDING").status = "pending" ∧
    (Lead.mk 3 "B" "b" "i" "r" "Sent") ∉
      get_pending_leads [["name", "contact", "interest", "region", "status"],
        ["A", "a", "i", "r", "PENDING"], ["B", "b", "i", "r", "Sent"]] :=
  ⟨(c4_get_pending_filters [["name", "contact", "interest", "region", "status"],
      ["A", "a", "i", "r", "PENDING"], ["B", "b", "i", "r", "Sent"]]).1
      (Lead.mk 2 "A" "a" "i" "r" "PENDING") (by decide),
   (c4_get_pending_filters [["name", "contact", "interest", "region", "status"],
      ["A", "a", "i", "r", "PENDING"], ["B", "b", "i", "r", "Sent"]]).2
      (Lead.mk 3 "B" "b" "i" "r" "Sent") (by decide) (by decide)⟩

lemma processLead_testMode_statusWrites (ora : NetOracles) (gen : Lead → Option String)
    (acc : CampaignTrace) (lead : Lead) :
    (processLead ora gen true acc lead).statusWrites = acc.statusWrites := by
  unfold processLead
  cases gen lead with
  | none => simp
  | some msg =>
    cases hk : (send_message ora lead msg true).ok <;> simp [hk]

lemma campaignFold_testMode_statusWrites (ora : NetOracles) (gen : Lead → Option String) :
    ∀ (leads : List Lead) (acc : CampaignTrace),
      (campaignFold ora gen true acc leads).statusWrites = acc.statusWrites := by
  intro leads
  induction leads with
  | nil => intro acc; rfl
  | cons lead rest ih =>
    intro acc
    rw [campaignFold, List.foldl_cons]
    rw [show List.foldl (processLead ora gen true) (processLead ora gen true acc lead) rest
      = campaignFold ora gen true (processLead ora gen true acc lead) rest from rfl]
    rw [ih, processLead_testMode_statusWrites]

lemma processLead_counts (ora : NetOracles) (gen : Lead → Option String) (testMode : Bool)
    (acc : CampaignTrace) (lead : Lead) :
    (processLead ora gen testMode acc lead).success_count
      + (processLead ora gen testMode acc lead).error_count
      = acc.success_count + acc.error_count + 1 := by
  unfold processLead
  cases gen lead with
  | none => simp; omega
  | some msg =>
    cases hk : (send_message ora lead msg testMode).ok <;> simp [hk] <;> omega

lemma campaignFold_counts (ora : NetOracles) (gen : Lead → Option String) (testMode : Bool) :
    ∀ (leads : List Lead) (acc : CampaignTrace),
      (campaignFold ora gen testMode acc leads).success_count
        + (campaignFold ora gen testMode acc leads).error_count
        = acc.success_count + acc.error_count + leads.length := by
  intro leads
  induction leads with
  | nil => intro acc; simp [campaignFold]
  | cons lead rest ih =>
    intro acc
    rw [campaignFold, List.foldl_cons]
    rw [show List.foldl (processLead ora gen testMode) (processLead ora gen testMode acc lead) rest
      = campaignFold ora gen testMode (processLead ora gen testMode acc lead) rest from rfl]
    rw [ih, processLead_counts]
    simp [List.length_cons]
    omega

/-- Claim C5: when generation returns absent for a lead, the loop body marks
that lead `"Error"` in live mode (and writes nothing in dry-run mode), leaves
the success counter unchanged, increments the error counter, invokes no send
and no network call, and the fold continues with the remaining leads. -/
theorem c5_generation_absent_marks_error (ora : NetOracles) (gen : Lead → Option String)
    (testMode : Bool) (acc : CampaignTrace) (lead : Lead) (h : gen lead = none) :
    (processLead ora gen testMode acc lead).success_count = acc.success_count ∧
    (processLead ora gen testMode acc lead).error_count = acc.error_count + 1 ∧
    (testMode = false → (processLead ora gen testMode acc lead).statusWrites
      = acc.statusWrites ++ [(lead.row_number, "Error")]) ∧
    (testMode = true → (processLead ora gen testMode acc lead).statusWrites = acc.statusWrites) ∧
    (processLead ora gen testMode acc lead).sendInvocations = acc.sendInvocations ∧
    (processLead ora gen testMode acc lead).networkCalls = acc.networkCalls ∧
    (∀ rest : List Lead, campaignFold ora gen testMode acc (lead :: rest)
      = campaignFold ora gen testMode (processLead ora gen testMode acc lead) rest) := by
  refine ⟨by simp [processLead, h], by simp [processLead, h], fun ht => ?_, fun ht => ?_,
    by simp [processLead, h], by simp [processLead, h], fun rest => rfl⟩
  · simp [processLead, h, ht]
  · simp [processLead, h, ht]

/-- Claim C5 witness: the theorem applied to a generator that returns absent,
in live mode, on a concrete lead and an empty starting trace. -/
theorem c5_witness :
    (processLead ⟨fun _ _ _ => (true, "ok"), fun _ _ _ => (true, "ok")⟩ (fun _ => none) false
      ⟨0, 0, [], [], 0⟩ (Lead.mk 2 "A" "a@b.co" "i" "r" "Pending")).error_count = 0 + 1 ∧
    (processLead ⟨fun _ _ _ => (true, "ok"), fun _ _ _ => (true, "ok")⟩ (fun _ => none) false
      ⟨0, 0, [], [], 0⟩ (Lead.mk 2 "A" "a@b.co" "i" "r" "Pending")).statusWrites
      = [] ++ [(2, "Error")] ∧
    (processLead ⟨fun _ _ _ => (true, "ok"), fun _ _ _ => (true, "ok")⟩ (fun _ => none) false
      ⟨0, 0, [], [], 0⟩ (Lead.mk 2 "A" "a@b.co" "i" "r" "Pending")).sendInvocations = [] :=
  ⟨(c5_generation_absent_marks_error ⟨fun _ _ _ => (true, "ok"), fun _ _ _ => (true, "ok")⟩
      (fun _ => none) false ⟨0, 0, [], [], 0⟩ (Lead.mk 2 "A" "a@b.co" "i" "r" "Pending") rfl).2.1,
   (c5_generation_absent_marks_error ⟨fun _ _ _ => (true, "ok"), fun _ _ _ => (true, "ok")⟩
      (fun _ => none) false ⟨0, 0, [], [], 0⟩ (Lead.mk 2 "A" "a@b.co" "i" "r" "Pending") rfl).2.2.1 rfl,
   (c5_generation_absent_marks_error ⟨fun _ _ _ => (true, "ok"), fun _ _ _ => (true, "ok")⟩
      (fun _ => none) false ⟨0, 0, [], [], 0⟩ (Lead.mk 2 "A" "a@b.co" "i" "r" "Pending") rfl).2.2.2.2.1⟩

/-- Claim C6: in dry-run (test) mode `send_message` takes the early-return
path — no network call, success, and the fixed "nothing was sent" detail —
and a dry-run campaign performs no status writes at all. -/
theorem c6_dry_run_no_network_no_writes (ora : NetOracles) (lead : Lead) (msg : String)
    (gen : Lead → Option String) (values : List (List String)) :
    send_message ora lead msg true = .testMode ∧
    (send_message ora lead msg true).networkCalls = 0 ∧
    (send_message ora lead msg true).ok = true ∧
    (send_message ora lead msg true).detail = "Test mode - message not actually sent" ∧
    (run_outreach_campaign ora gen true values).statusWrites = [] := by
  refine ⟨rfl, rfl, rfl, rfl, ?_⟩
  rw [run_outreach_campaign, campaignFold_testMode_statusWrites]

/-- Claim C10: over any store snapshot and any oracle behavior, every pending
lead bumps exactly one counter, so the final tally satisfies
`success_count + error_count = number of pending leads`. -/
theorem c10_counts_partition (ora : NetOracles) (gen : Lead → Option String)
    (testMode : Bool) (values : List (List String)) :
    (run_outreach_campaign ora gen testMode values).success_count
      + (run_outreach_campaign ora gen testMode values).error_count
      = (get_pending_leads values).length := by
  rw [run_outreach_campaign, campaignFold_counts]
  simp

lemma readLeadsAux_map_row_number (headerLen : Nat) :
    ∀ (rows : List (List String)) (i : Nat),
      (readLeadsAux headerLen i rows).map Lead.row_number = List.range' i rows.length := by
  intro rows
  induction rows with
  | nil => intro i; rfl
  | cons r rs ih =>
    intro i
    rw [readLeadsAux, List.map_cons, List.length_cons, List.range'_succ, ih]
    rfl

lemma read_leads_row_numbers_nodup (values : List (List String)) :
    ((read_leads values).map Lead.row_number).Nodup := by
  cases values with
  | nil => simp [read_leads]
  | cons headers rest =>
    rw [read_leads, readLeadsAux_map_row_number]
    exact List.nodup_range' 2 rest.length

/-- Claim C7: `retry_failed` issues exactly one `"Pending"` status write per
lead whose status is `"Error"` up to case — the writes target exactly those
leads' rows, no row twice — and touches no row of any other lead; on the
concrete five-lead store with three `"Error"` and two `"Pending"` leads it
resets exactly rows 2, 4 and 6. -/
theorem c7_retry_failed_resets_error_leads (values : List (List String)) :
    (retry_failed values).length
      = ((read_leads values).filter (fun l => pyLower l.status == "error")).length ∧
    (∀ (r : Nat) (s : String), (r, s) ∈ retry_failed values ↔
      (s = "Pending" ∧ ∃ l ∈ read_leads values, pyLower l.status = "error" ∧ l.row_number = r)) ∧
    ((retry_failed values).map Prod.fst).Nodup ∧
    (∀ l ∈ read_leads values, pyLower l.status ≠ "error" →
      ∀ s : String, (l.row_number, s) ∉ retry_failed values) ∧
    retry_failed [["name", "contact", "interest", "region", "status"],
        ["A", "a", "i", "r", "Error"], ["B", "b", "i", "r", "Pending"],
        ["C", "c", "i", "r", "Error"], ["D", "d", "i", "r", "Pending"],
        ["E", "e", "i", "r", "Error"]]
      = [(2, "Pending"), (4, "Pending"), (6, "Pending")] := by
  refine ⟨by simp [retry_failed], ?_, ?_, ?_, by decide⟩
  · intro r s
    simp only [retry_failed, List.mem_map, List.mem_filter, beq_iff_eq, Prod.mk.injEq]
    constructor
    · rintro ⟨l, ⟨hl, herr⟩, hr, hs⟩
      exact ⟨hs.symm, l, hl, herr, hr⟩
    · rintro ⟨hs, l, hl, herr, hr⟩
      exact ⟨l, ⟨hl, herr⟩, hr, hs.symm⟩
  · have hsub : List.Sublist
        (((read_leads values).filter (fun l => pyLower l.status == "error")).map Lead.row_number)
        ((read_leads values).map Lead.row_number) :=
      (List.filter_sublist _).map Lead.row_number
    have hnd := (read_leads_row_numbers_nodup values).sublist hsub
    simpa [retry_failed, List.map_map, Function.comp] using hnd
  · intro l hl hne s hmem
    simp only [retry_failed, List.mem_map, List.mem_filter, beq_iff_eq, Prod.mk.injEq] at hmem
    obtain ⟨l2, ⟨hl2, herr2⟩, hr2, _⟩ := hmem
    have : l2 = l :=
      List.inj_on_of_nodup_map (read_leads_row_numbers_nodup values) hl2 hl hr2
    rw [this] at herr2
    exact hne herr2

/-- Claim C7 witness: the theorem applied to the concrete five-lead store —
row 4 (an `"Error"` lead) is written `"Pending"`, and row 3 (a `"Pending"`
lead) is untouched. -/
theorem c7_witness :
    ((4, "Pending") ∈ retry_failed [["name", "contact", "interest", "region", "status"],
        ["A", "a", "i", "r", "Error"], ["B", "b", "i", "r", "Pending"],
        ["C", "c", "i", "r", "Error"], ["D", "d", "i", "r", "Pending"],
        ["E", "e", "i", "r", "Error"]]) ∧
    ((3, "Pending") ∉ retry_failed [["name", "contact", "interest", "region", "status"],
        ["A", "a", "i", "r", "Error"], ["B", "b", "i", "r", "Pending"],
        ["C", "c", "i", "r", "Error"], ["D", "d", "i", "r", "Pending"],
        ["E", "e", "i", "r", "Error"]]) :=
  ⟨((c7_retry_failed_resets_error_leads [["name", "contact", "interest", "region", "status"],
        ["A", "a", "i", "r", "Error"], ["B", "b", "i", "r", "Pending"],
        ["C", "c", "i", "r", "Error"], ["D", "d", "i", "r", "Pending"],
        ["E", "e", "i", "r", "Error"]]).2.1 4 "Pending").mpr (by decide),
   (c7_retry_failed_resets_error_leads [["name", "contact", "interest", "region", "status"],
        ["A", "a", "i", "r", "Error"], ["B", "b", "i", "r", "Pending"],
        ["C", "c", "i", "r", "Error"], ["D", "d", "i", "r", "Pending"],
        ["E", "e", "i", "r", "Error"]]).2.2.2.1
     (Lead.mk 3 "B" "b" "i" "r" "Pending") (by decide) (by decide) "Pending"⟩

lemma readLeadsAux_length (headerLen : Nat) :
    ∀ (rows : List (List String)) (i : Nat), (readLeadsAux headerLen i rows).length = rows.length := by
  intro rows
  induction rows with
  | nil => intro i; rfl
  | cons r rs ih => intro i; simp [readLeadsAux, ih]

lemma readLeadsAux_getElem? (headerLen : Nat) :
    ∀ (rows : List (List String)) (i k : Nat),
      (readLeadsAux headerLen i rows)[k]?
        = (rows[k]?).map (fun row => mkLead (i + k) (padRow row headerLen)) := by
  intro rows
  induction rows with
  | nil => intro i k; simp [readLeadsAux]
  | cons r rs ih =>
    intro i k
    cases k with
    | zero => simp [readLeadsAux]
    | succ k =>
      simp only [readLeadsAux, List.getElem?_cons_succ, ih]
      have : i + 1 + k = i + (k + 1) := by omega
      rw [this]

/-- Claim C1 counterexample: with the five-column header actually used by the
store (`A:E`), a data row that has no status cell is padded with empty
strings, so the materialized lead's status is `""`, not `"Pending"`. -/
theorem c1_counterexample :
    (read_leads [["name", "contact", "interest", "region", "status"],
        ["Alice", "alice@x.com"]]).map Lead.status = [""] ∧
    (["Alice", "alice@x.com"] : List String).length ≤ 4 ∧
    ("" : String) ≠ "Pending" := by
  decide

/-- Claim C1 (amended): `read_leads` discards the header row and right-pads
every shorter data row with empty strings up to the header length; a lead's
status defaults to `"Pending"` only when even the padded row has no fifth
cell (both the data row and the header have at most four columns), while
under a header of five or more columns a missing status cell becomes `""`. -/
theorem c1_read_leads_padding_and_status (headers : List String)
    (rest : List (List String)) (k : Nat) (row : List String) (lead : Lead)
    (hrow : rest[k]? = some row)
    (hlead : (read_leads (headers :: rest))[k]? = some lead) :
    (read_leads (headers :: rest)).length = rest.length ∧
    lead.row_number = k + 2 ∧
    (padRow row headers.length).length = max row.length headers.length ∧
    ((4 < row.length ∨ 4 < headers.length) →
      lead.status = ((padRow row headers.length)[4]?).getD "") ∧
    (row.length ≤ 4 → headers.length ≤ 4 → lead.status = "Pending") ∧
    (row.length ≤ 4 → 5 ≤ headers.length → lead.status = "") := by
  rw [read_leads, readLeadsAux_getElem?, hrow] at hlead
  simp only [Option.map_some'] at hlead
  have hl : lead = mkLead (2 + k) (padRow row headers.length) :=
    (Option.some.injEq _ _ ▸ hlead).symm
  have hpadlen : (padRow row headers.length).length = max row.length headers.length := by
    simp [padRow]
    omega
  have hstatus : lead.status = ((padRow row headers.length).get? 4).getD "Pending" := by
    rw [hl]; rfl
  rw [List.get?_eq_getElem?] at hstatus
  refine ⟨by rw [read_leads, readLeadsAux_length], by rw [hl]; simp [mkLead]; omega, hpadlen,
    ?_, ?_, ?_⟩
  · intro hlong
    have hlt : 4 < (padRow row headers.length).length := by omega
    rw [List.getElem?_eq_getElem hlt] at hstatus ⊢
    simpa using hstatus
  · intro h1 h2
    have hle : (padRow row headers.length).length ≤ 4 := by omega
    rw [List.getElem?_eq_none hle] at hstatus
    simpa using hstatus
  · intro h1 h2
    have hrl : row.length ≤ 4 := h1
    rw [show padRow row headers.length = row ++ List.replicate (headers.length - row.length) ""
        from rfl, List.getElem?_append_right hrl, List.getElem?_replicate] at hstatus
    rw [if_pos (by omega)] at hstatus
    simpa using hstatus

/-- Claim C1 witness: the amended theorem applied to the concrete
counterexample store. -/
theorem c1_witness :
    (read_leads [["name", "contact", "interest", "region", "status"],
        ["Alice", "alice@x.com"]]).length = 1 ∧
    (Lead.mk 2 "Alice" "alice@x.com" "" "" "").status = "" := by
  have h := c1_read_leads_padding_and_status
    ["name", "contact", "interest", "region", "status"] [["Alice", "alice@x.com"]]
    0 ["Alice", "alice@x.com"] (Lead.mk 2 "Alice" "alice@x.com" "" "" "")
    (by decide) (by decide)
  exact ⟨h.1, h.2.2.2.2.2 (by decide) (by decide)⟩
